import Mathlib

/-!
Shallow embedding of `aws_simulation.py` (precision-agriculture edge/fog/cloud
pipeline).  Python dict records are modelled as insertion-ordered association
lists over a small value universe; Python floats are modelled as rationals;
`random.uniform` draws and `datetime.utcnow()` timestamps are passed as
explicit parameters; a Python exception (KeyError/TypeError) is modelled as
`Option.none`.
-/

namespace AwsSim

/-- Scalar Python values appearing in the records of the pipeline:
numbers (floats/ints as rationals), strings, and booleans. -/
inductive Scalar where
  | num : ℚ → Scalar
  | str : String → Scalar
  | bool : Bool → Scalar
deriving DecidableEq

/-- Values stored at the top level of a record: a scalar, a list of strings,
or a flat sub-dictionary of scalars (the shapes the script constructs). -/
inductive Value where
  | scalar : Scalar → Value
  | strList : List String → Value
  | dict : List (String × Scalar) → Value
deriving DecidableEq

/-- A Python dict record: insertion-ordered association list. -/
abbrev Rec := List (String × Value)

/-- `d[k]` lookup (first occurrence), `none` models KeyError. -/
def getV (d : Rec) (k : String) : Option Value :=
  (d.find? (fun p => p.1 == k)).map Prod.snd

/-- Replace the value at every occurrence of key `k`, keeping positions. -/
def updV : Rec → String → Value → Rec
  | [], _, _ => []
  | p :: t, k, v => (if p.1 == k then (k, v) else p) :: updV t k v

/-- Whether key `k` is present. -/
def hasKey (d : Rec) (k : String) : Bool :=
  d.any (fun p => p.1 == k)

/-- Python `d[k] = v`: update in place if the key exists, else append. -/
def setV (d : Rec) (k : String) (v : Value) : Rec :=
  if hasKey d k then updV d k v else d ++ [(k, v)]

/-- Python `{**a, **b}`: start from `a`, insert/overwrite each entry of `b`. -/
def merge (a b : Rec) : Rec :=
  b.foldl (fun acc p => setV acc p.1 p.2) a

/-- Lookup in a flat scalar sub-dictionary. -/
def getS (sd : List (String × Scalar)) (k : String) : Option Scalar :=
  (sd.find? (fun p => p.1 == k)).map Prod.snd

/-- Update in a flat scalar sub-dictionary (in place or append). -/
def setS (sd : List (String × Scalar)) (k : String) (v : Scalar) :
    List (String × Scalar) :=
  if sd.any (fun p => p.1 == k) then
    sd.map (fun p => if p.1 == k then (k, v) else p)
  else sd ++ [(k, v)]

/-- `d[k]` expecting a sub-dictionary (else TypeError/KeyError: `none`). -/
def getDictField (d : Rec) (k : String) : Option (List (String × Scalar)) :=
  match getV d k with
  | some (Value.dict sd) => some sd
  | _ => none

/-- `d[k][k2]` expecting any scalar. -/
def getScalarField (d : Rec) (k k2 : String) : Option Scalar :=
  match getDictField d k with
  | some sd => getS sd k2
  | none => none

/-- `d[k][k2]` used as a boolean flag. -/
def getBoolField (d : Rec) (k k2 : String) : Option Bool :=
  match getScalarField d k k2 with
  | some (Scalar.bool b) => some b
  | _ => none

/-- `d[k][k2]` used as a number. -/
def getNumField (d : Rec) (k k2 : String) : Option ℚ :=
  match getScalarField d k k2 with
  | some (Scalar.num q) => some q
  | _ => none

/-- Top-level `d[k]` used as a number. -/
def getNumTop (d : Rec) (k : String) : Option ℚ :=
  match getV d k with
  | some (Value.scalar (Scalar.num q)) => some q
  | _ => none

/-- Top-level `d[k]` used as a list of strings. -/
def getStrListTop (d : Rec) (k : String) : Option (List String) :=
  match getV d k with
  | some (Value.strList l) => some l
  | _ => none

/-! ## Python `str()` rendering, for the `"GYROSCOPE" in str(...)` test -/

/-- Render a rational the way the embedding prints numbers.  The digits differ
from CPython float `repr`, but both renderings consist only of digits, signs
and punctuation, so substring tests for upper-case sensor names agree. -/
def pyStrNum (q : ℚ) : String :=
  if q.den = 1 then toString q.num else toString q.num ++ "/" ++ toString q.den

/-- Python `repr` of a scalar. -/
def pyStrScalar : Scalar → String
  | Scalar.num q => pyStrNum q
  | Scalar.str s => "'" ++ s ++ "'"
  | Scalar.bool b => if b then "True" else "False"

/-- Comma-space join, as inside Python container `repr`s. -/
def joinComma : List String → String
  | [] => ""
  | [s] => s
  | s :: rest => s ++ ", " ++ joinComma rest

/-- Python `repr` of one scalar sub-dictionary entry. -/
def pyStrSEntry (p : String × Scalar) : String :=
  "'" ++ p.1 ++ "': " ++ pyStrScalar p.2

/-- Python `repr` of a top-level value. -/
def pyStrValue : Value → String
  | Value.scalar s => pyStrScalar s
  | Value.strList l =>
      "[" ++ joinComma (l.map (fun s => "'" ++ s ++ "'")) ++ "]"
  | Value.dict sd =>
      "\x7b" ++ joinComma (sd.map pyStrSEntry) ++ "\x7d"

/-- Python `repr` of one record entry. -/
def pyStrEntry (p : String × Value) : String :=
  "'" ++ p.1 ++ "': " ++ pyStrValue p.2

/-- Python `str()` of a record. -/
def pyStr (d : Rec) : String :=
  "\x7b" ++ joinComma (d.map pyStrEntry) ++ "\x7d"

/-- Python `needle in hay` on strings: substring test. -/
def strContains (hay needle : String) : Bool :=
  decide (needle.toList <:+: hay.toList)

/-! ## The pipeline itself -/

/-- Global `DEVICE_ID` (its default value; no claim depends on it). -/
def DEVICE_ID : String := "precision-agriculture-device"

/-- `generate_precision_agriculture_sensor_data`: the shape of a generated raw
reading; each `random.uniform`/`random.choice` draw and the timestamp are
explicit parameters. -/
def generate_precision_agriculture_sensor_data
    (gx gy gz av ax ay az mag dist sig : ℚ) (obst : Bool) (ts : String) :
    Rec :=
  [ ("GYROSCOPE", Value.dict
      [ ("x_axis", Scalar.num gx), ("y_axis", Scalar.num gy),
        ("z_axis", Scalar.num gz), ("angular_velocity", Scalar.num av) ]),
    ("ACCELEROMETER", Value.dict
      [ ("x_accel", Scalar.num ax), ("y_accel", Scalar.num ay),
        ("z_accel", Scalar.num az), ("magnitude", Scalar.num mag) ]),
    ("PROXIMITY", Value.dict
      [ ("distance", Scalar.num dist),
        ("obstacle_detected", Scalar.bool obst),
        ("signal_strength", Scalar.num sig) ]),
    ("timestamp", Value.scalar (Scalar.str ts)),
    ("sensor_transmission_time", Value.scalar (Scalar.num 3)) ]

/-- `process_biometric_data` (edge stage).  `stability_score` is the rounded
`random.uniform(0.5, 1.0)` draw, passed explicitly. -/
def process_biometric_data (raw_data : Rec) (stability_score : ℚ) :
    Option Rec := do
  let av ← getNumField raw_data "GYROSCOPE" "angular_velocity"
  let mag ← getNumField raw_data "ACCELEROMETER" "magnitude"
  let dist ← getNumField raw_data "PROXIMITY" "distance"
  let processed : Rec := merge
    [ ("device_id", Value.scalar (Scalar.str DEVICE_ID)),
      ("application_id",
        Value.scalar (Scalar.str "precision-agriculture-monitoring")),
      ("processed_at", Value.scalar (Scalar.str "edge-device")),
      ("processing_delay_ms", Value.scalar (Scalar.num 3)) ]
    raw_data
  let processed := setV processed "gyroscope_analysis" (Value.dict
    [ ("stability_score", Scalar.num stability_score),
      ("motion_detected", Scalar.bool (decide (|av| > 5))) ])
  let processed := setV processed "accelerometer_analysis" (Value.dict
    [ ("impact_detected", Scalar.bool (decide (mag > 15))),
      ("activity_level", Scalar.str (if mag > 10 then "high" else "normal")) ])
  let processed := setV processed "proximity_analysis" (Value.dict
    [ ("object_nearby", Scalar.bool (decide (dist < 50))),
      ("alert_level",
        Scalar.str (if dist < 10 then "critical" else "normal")) ])
  let processed := setV processed "biometric_to_analysis_tuple" (Value.dict
    [ ("tuple_cpu_delay", Scalar.num 0.41249999999990905),
      ("data_size", Scalar.num 2500),
      ("network_delay", Scalar.num 1800) ])
  pure processed

/-- Loop-delay constant of the critical health loop. -/
def critLoopDelay : ℚ := 34.162499999999966

/-- Loop-delay constant of the routine monitoring loop. -/
def routineLoopDelay : ℚ := 13.651647286821639

/-- `analyze_health_data` (fog stage); fully deterministic. -/
def analyze_health_data (biometric_data : Rec) : Option Rec := do
  let motion ← getBoolField biometric_data "gyroscope_analysis"
    "motion_detected"
  let impact ← getBoolField biometric_data "accelerometer_analysis"
    "impact_detected"
  let nearby ← getBoolField biometric_data "proximity_analysis"
    "object_nearby"
  let s1 : List String × String :=
    if motion then (["EXCESSIVE_MOVEMENT"], "medium") else ([], "normal")
  let s2 : List String × String :=
    if impact then (s1.1 ++ ["IMPACT_DETECTED"], "high") else s1
  let s3 ← (if nearby then do
      let pl ← getScalarField biometric_data "proximity_analysis"
        "alert_level"
      pure (s2.1 ++ ["OBSTACLE_DETECTED"],
        if pl = Scalar.str "critical" then "critical" else s2.2)
    else pure s2)
  let health_issues := s3.1
  let alert_level := s3.2
  let r := setV biometric_data "health_issues" (Value.strList health_issues)
  let r := setV r "issue_count"
    (Value.scalar (Scalar.num health_issues.length))
  let r := setV r "alert_level" (Value.scalar (Scalar.str alert_level))
  let r := setV r "analyzed_at" (Value.scalar (Scalar.str "fog-node"))
  let r :=
    if strContains (pyStr biometric_data) "GYROSCOPE" = true ∧
        alert_level = "critical" then
      setV (setV r "loop_delay_ms" (Value.scalar (Scalar.num critLoopDelay)))
        "loop_type" (Value.scalar (Scalar.str "critical_health_loop"))
    else
      setV (setV r "loop_delay_ms"
          (Value.scalar (Scalar.num routineLoopDelay)))
        "loop_type" (Value.scalar (Scalar.str "routine_monitoring_loop"))
  let r := setV r "analysis_to_cloud_tuple" (Value.dict
    [ ("tuple_cpu_delay", Scalar.num 0.21000000000003638),
      ("data_size", Scalar.num 2200),
      ("network_delay", Scalar.num 1600) ])
  pure r

/-- `perform_cloud_analysis` (cloud stage); `cloud_confidence` is the
`random.uniform(0.8, 0.99)` draw, passed explicitly. -/
def perform_cloud_analysis (health_analysis_data : Rec)
    (cloud_confidence : ℚ) : Option Rec := do
  let issueCount ← getNumTop health_analysis_data "issue_count"
  let issues ← getStrListTop health_analysis_data "health_issues"
  let alert ← getV health_analysis_data "alert_level"
  let patterns : List String :=
    (if issueCount > 1 then ["MULTI_SENSOR_CORRELATION"] else []) ++
    (if "IMPACT_DETECTED" ∈ issues then ["PHYSICAL_IMPACT_PATTERN"] else [])
      ++
    (if "EXCESSIVE_MOVEMENT" ∈ issues ∧ "OBSTACLE_DETECTED" ∈ issues then
      ["COLLISION_RISK_PATTERN"] else [])
  let recommended_actions : List String :=
    if alert = Value.scalar (Scalar.str "critical") then
      ["EMERGENCY_ALERT"]
    else if alert = Value.scalar (Scalar.str "high") ∨
        alert = Value.scalar (Scalar.str "medium") then
      ["HEALTH_NOTIFICATION"]
    else
      ["ROUTINE_MONITORING"]
  let r := setV health_analysis_data "cloud_patterns"
    (Value.strList patterns)
  let r := setV r "cloud_confidence"
    (Value.scalar (Scalar.num cloud_confidence))
  let r := setV r "recommended_actions" (Value.strList recommended_actions)
  let r := setV r "cloud_analysis_at" (Value.scalar (Scalar.str "cloud"))
  let r := setV r "execution_time_ms" (Value.scalar (Scalar.num 232))
  let r := setV r "energy_consumption" (Value.dict
    [ ("cloud_energy", Scalar.num 3701548.874999916),
      ("fog_node_energy", Scalar.num 240755.0000000157),
      ("edge_device_energy", Scalar.num 239058.5),
      ("execution_cost", Scalar.num 81239.10000010965),
      ("total_network_usage", Scalar.num 21258.8) ])
  pure r

/-- One loop body of `simulate_actuator_responses`: the response appended for
a given recommended action (none for an unrecognised action).  `ts` stands
for the `datetime.utcnow().isoformat()` timestamp. -/
def actuatorResponse (ts : String) (action : String) : Option Rec :=
  if action = "EMERGENCY_ALERT" then some
    [ ("actuator", Value.scalar (Scalar.str "a-emergency-alert")),
      ("action", Value.scalar (Scalar.str "EMERGENCY_ALERT")),
      ("status", Value.scalar (Scalar.str "executed")),
      ("latency_ms", Value.scalar (Scalar.num 0.5)),
      ("gateway_device", Value.scalar (Scalar.str "edge-device")),
      ("timestamp", Value.scalar (Scalar.str ts)) ]
  else if action = "HEALTH_NOTIFICATION" then some
    [ ("actuator", Value.scalar (Scalar.str "a-health-notification")),
      ("action", Value.scalar (Scalar.str "HEALTH_NOTIFICATION")),
      ("status", Value.scalar (Scalar.str "executed")),
      ("latency_ms", Value.scalar (Scalar.num 0.8)),
      ("gateway_device", Value.scalar (Scalar.str "edge-device")),
      ("timestamp", Value.scalar (Scalar.str ts)) ]
  else if action = "ROUTINE_MONITORING" then some
    [ ("actuator", Value.scalar (Scalar.str "a-routine-monitor")),
      ("action", Value.scalar (Scalar.str "ROUTINE_MONITORING")),
      ("status", Value.scalar (Scalar.str "executed")),
      ("latency_ms", Value.scalar (Scalar.num 0.3)),
      ("gateway_device", Value.scalar (Scalar.str "edge-device")),
      ("timestamp", Value.scalar (Scalar.str ts)) ]
  else none

/-- `simulate_actuator_responses` (actuator responder). -/
def simulate_actuator_responses (cloud_result : Rec) (ts : String) :
    Option (List Rec) := do
  let actions ← getStrListTop cloud_result "recommended_actions"
  pure (actions.filterMap (actuatorResponse ts))

/-- A concrete raw reading with angular_velocity 6.0, magnitude 16.0 and
distance 5.0 (the spec's end-to-end fixture); other draws instantiated. -/
def fixedReading : Rec :=
  generate_precision_agriculture_sensor_data 1 2 3 6 4 5 6 16 5 50 true "t0"

/-! ## Dictionary lemmas -/

theorem getV_cons (p : String × Value) (t : Rec) (k : String) :
    getV (p :: t) k = if p.1 == k then some p.2 else getV t k := by
  cases h : p.1 == k <;> simp [getV, List.find?, h]

theorem hasKey_cons (p : String × Value) (t : Rec) (k : String) :
    hasKey (p :: t) k = (p.1 == k || hasKey t k) := by
  simp [hasKey]

theorem getV_eq_none_of_hasKey (d : Rec) (k : String)
    (h : hasKey d k = false) : getV d k = none := by
  induction d with
  | nil => rfl
  | cons p t ih =>
    rw [hasKey_cons, Bool.or_eq_false_iff] at h
    rw [getV_cons, h.1]
    exact ih h.2

theorem getV_eq_none_of_not_mem (d : Rec) (k : String)
    (h : k ∉ d.map Prod.fst) : getV d k = none := by
  induction d with
  | nil => rfl
  | cons p t ih =>
    simp only [List.map_cons, List.mem_cons, not_or] at h
    rw [getV_cons]
    have hp : (p.1 == k) = false := by
      rw [beq_eq_false_iff_ne]
      exact fun hc => h.1 hc.symm
    rw [hp]
    exact ih h.2

theorem getV_some_mem (d : Rec) (k : String) (v : Value)
    (h : getV d k = some v) : (k, v) ∈ d := by
  induction d with
  | nil => simp [getV] at h
  | cons p t ih =>
    rw [getV_cons] at h
    by_cases hp : (p.1 == k) = true
    · rw [if_pos hp] at h
      have hk : p.1 = k := by rwa [beq_iff_eq] at hp
      have hv : v = p.2 := (Option.some_injective _ h).symm
      have hkv : (k, v) = p := by rw [hv, ← hk]
      rw [hkv]
      exact List.mem_cons_self _ _
    · rw [if_neg hp] at h
      exact List.mem_cons_of_mem _ (ih h)

theorem getV_append_left (d e : Rec) (k : String) (v : Value)
    (h : getV d k = some v) : getV (d ++ e) k = some v := by
  induction d with
  | nil => simp [getV] at h
  | cons p t ih =>
    rw [getV_cons] at h
    rw [List.cons_append, getV_cons]
    by_cases hp : (p.1 == k) = true
    · rwa [if_pos hp] at h ⊢
    · rw [if_neg hp] at h ⊢
      exact ih h

theorem getV_append_right (d e : Rec) (k : String)
    (h : getV d k = none) : getV (d ++ e) k = getV e k := by
  induction d with
  | nil => rfl
  | cons p t ih =>
    rw [getV_cons] at h
    rw [List.cons_append, getV_cons]
    by_cases hp : (p.1 == k) = true
    · rw [if_pos hp] at h; exact absurd h (by simp)
    · rw [if_neg hp] at h ⊢
      exact ih h

theorem getV_updV_self (d : Rec) (k : String) (v : Value)
    (h : hasKey d k = true) : getV (updV d k v) k = some v := by
  induction d with
  | nil => simp [hasKey] at h
  | cons p t ih =>
    rw [hasKey_cons] at h
    rw [updV]
    by_cases hp : (p.1 == k) = true
    · rw [if_pos hp, getV_cons]
      simp
    · have hp2 : (p.1 == k) = false := by rwa [Bool.not_eq_true] at hp
      rw [if_neg hp, getV_cons, if_neg hp]
      rw [hp2, Bool.false_or] at h
      exact ih h

theorem getV_updV_ne (d : Rec) (k k2 : String) (v : Value)
    (h : k2 ≠ k) : getV (updV d k v) k2 = getV d k2 := by
  induction d with
  | nil => rfl
  | cons p t ih =>
    rw [updV]
    by_cases hp : (p.1 == k) = true
    · have hk : p.1 = k := by rwa [beq_iff_eq] at hp
      rw [if_pos hp, getV_cons, getV_cons]
      have h1 : (k == k2) = false := by
        rw [beq_eq_false_iff_ne]; exact fun hc => h hc.symm
      have h2 : (p.1 == k2) = false := by
        rw [beq_eq_false_iff_ne, hk]; exact fun hc => h hc.symm
      rw [h1, h2]
      simpa using ih
    · rw [if_neg hp, getV_cons, getV_cons]
      by_cases hq : (p.1 == k2) = true
      · simp [hq]
      · rw [Bool.not_eq_true] at hq
        rw [hq]
        simpa using ih

/-- The workhorse: lookup after a Python-style dict assignment. -/
theorem getV_setV (d : Rec) (k k2 : String) (v : Value) :
    getV (setV d k v) k2 = if k2 = k then some v else getV d k2 := by
  by_cases hk : k2 = k
  · subst hk
    rw [if_pos rfl, setV]
    by_cases hh : hasKey d k2 = true
    · rw [if_pos hh]
      exact getV_updV_self d k2 v hh
    · have hh2 : hasKey d k2 = false := by rwa [Bool.not_eq_true] at hh
      rw [if_neg hh]
      rw [getV_append_right d _ _ (getV_eq_none_of_hasKey d k2 hh2)]
      rw [getV_cons]
      simp
  · rw [if_neg hk, setV]
    by_cases hh : hasKey d k = true
    · rw [if_pos hh]
      exact getV_updV_ne d k k2 v hk
    · rw [if_neg hh]
      cases hv : getV d k2 with
      | some w => exact getV_append_left d _ k2 w hv
      | none =>
        rw [getV_append_right d _ _ hv, getV_cons]
        have : (k == k2) = false := by
          rw [beq_eq_false_iff_ne]; exact fun hc => hk hc.symm
        rw [this]
        rfl

theorem merge_nil (a : Rec) : merge a [] = a := rfl

theorem merge_cons (a : Rec) (p : String × Value) (t : Rec) :
    merge a (p :: t) = merge (setV a p.1 p.2) t := rfl

theorem getV_merge_of_none (b a : Rec) (k : String)
    (h : getV b k = none) : getV (merge a b) k = getV a k := by
  induction b generalizing a with
  | nil => rfl
  | cons p t ih =>
    rw [getV_cons] at h
    by_cases hp : (p.1 == k) = true
    · rw [if_pos hp] at h; exact absurd h (by simp)
    · rw [if_neg hp] at h
      rw [merge_cons, ih _ h, getV_setV]
      rw [if_neg (fun hc => hp (by rw [hc]; exact beq_self_eq_true _))]

theorem getV_merge_of_some (b a : Rec) (k : String) (v : Value)
    (hnd : (b.map Prod.fst).Nodup) (h : getV b k = some v) :
    getV (merge a b) k = some v := by
  induction b generalizing a with
  | nil => simp [getV] at h
  | cons p t ih =>
    rw [getV_cons] at h
    rw [List.map_cons, List.nodup_cons] at hnd
    by_cases hp : (p.1 == k) = true
    · rw [if_pos hp] at h
      have hk : p.1 = k := by rwa [beq_iff_eq] at hp
      have hnone : getV t k = none := by
        apply getV_eq_none_of_not_mem
        rw [← hk]; exact hnd.1
      rw [merge_cons, getV_merge_of_none t _ k hnone, getV_setV, if_pos hk.symm]
      exact h
    · rw [if_neg hp] at h
      rw [merge_cons]
      exact ih (setV a p.1 p.2) hnd.2 h

theorem getV_merge_cases (b a : Rec) (k : String)
    (h : getV (merge a b) k ≠ none) :
    getV a k ≠ none ∨ getV b k ≠ none := by
  induction b generalizing a with
  | nil => exact Or.inl h
  | cons p t ih =>
    rw [merge_cons] at h
    rcases ih _ h with h1 | h2
    · rw [getV_setV] at h1
      by_cases hk : k = p.1
      · right
        rw [getV_cons, if_pos (by rw [beq_iff_eq]; exact hk.symm)]
        simp
      · rw [if_neg hk] at h1
        exact Or.inl h1
    · right
      rw [getV_cons]
      by_cases hp : (p.1 == k) = true
      · rw [if_pos hp]; simp
      · rw [if_neg hp]; exact h2

/-- The broker client: its `publish` behaviour, success or raised error. -/
structure IotClient where
  publishOutcome : String → Rec → Except String Unit

/-- `publish_to_aws_iot`: returns `false` when the client is absent, wraps
the publish call and converts any raised error into `false`. -/
def publish_to_aws_iot (iot_client : Option IotClient)
    (topic : String) (payload : Rec) : Bool :=
  match iot_client with
  | none => false
  | some c =>
    match c.publishOutcome topic payload with
    | Except.ok _ => true
    | Except.error _ => false

/-- A broker client whose publish call always raises. -/
def failingClient : IotClient :=
  ⟨fun _ _ => Except.error "publish failed"⟩

/-! ## Claims -/

/-- Claim C7: the edge stage computes its derived fields by fixed thresholds:
motion_detected iff |angular_velocity| > 5.0, impact_detected iff
magnitude > 15.0, object_nearby iff distance < 50.0, proximity alert_level
"critical" iff distance < 10.0; a reading with magnitude 20 yields
impact_detected = true and activity_level = "high". -/
theorem c7_edge_thresholds (raw : Rec) (s av mag dist : ℚ)
    (hav : getNumField raw "GYROSCOPE" "angular_velocity" = some av)
    (hmag : getNumField raw "ACCELEROMETER" "magnitude" = some mag)
    (hdist : getNumField raw "PROXIMITY" "distance" = some dist) :
    ∃ e, process_biometric_data raw s = some e ∧
      getBoolField e "gyroscope_analysis" "motion_detected"
        = some (decide (|av| > 5)) ∧
      getBoolField e "accelerometer_analysis" "impact_detected"
        = some (decide (mag > 15)) ∧
      getBoolField e "proximity_analysis" "object_nearby"
        = some (decide (dist < 50)) ∧
      getScalarField e "proximity_analysis" "alert_level"
        = some (Scalar.str (if dist < 10 then "critical" else "normal")) ∧
      (mag = 20 →
        getBoolField e "accelerometer_analysis" "impact_detected"
            = some true ∧
        getScalarField e "accelerometer_analysis" "activity_level"
          = some (Scalar.str "high")) := by
  unfold process_biometric_data
  rw [hav, hmag, hdist]
  simp only [Option.bind_some, Option.some_bind]
  refine ⟨_, rfl, ?_, ?_, ?_, ?_, ?_⟩
  · simp [getBoolField, getScalarField, getDictField, getV_setV, getS,
      List.find?]
  · simp [getBoolField, getScalarField, getDictField, getV_setV, getS,
      List.find?]
  · simp [getBoolField, getScalarField, getDictField, getV_setV, getS,
      List.find?]
  · simp [getBoolField, getScalarField, getDictField, getV_setV, getS,
      List.find?]
  · intro h20
    subst h20
    constructor
    · simp [getBoolField, getScalarField, getDictField, getV_setV, getS,
        List.find?]
      norm_num
    · simp [getBoolField, getScalarField, getDictField, getV_setV, getS,
        List.find?]
      norm_num

/-- Witness for C7 at the fixed reading (angular_velocity 6, magnitude 16,
distance 5). -/
theorem c7_witness :
    getNumField fixedReading "GYROSCOPE" "angular_velocity" = some 6 ∧
    ∃ e, process_biometric_data fixedReading (1/2) = some e ∧
      getBoolField e "gyroscope_analysis" "motion_detected"
        = some (decide (|(6 : ℚ)| > 5)) ∧
      getBoolField e "accelerometer_analysis" "impact_detected"
        = some (decide ((16 : ℚ) > 15)) ∧
      getBoolField e "proximity_analysis" "object_nearby"
        = some (decide ((5 : ℚ) < 50)) ∧
      getScalarField e "proximity_analysis" "alert_level"
        = some (Scalar.str (if (5 : ℚ) < 10 then "critical" else "normal")) ∧
      ((16 : ℚ) = 20 →
        getBoolField e "accelerometer_analysis" "impact_detected"
            = some true ∧
        getScalarField e "accelerometer_analysis" "activity_level"
          = some (Scalar.str "high")) :=
  ⟨rfl, c7_edge_thresholds fixedReading (1/2) 6 16 5 rfl rfl rfl⟩

/-- Claim C6: publishing with a null/absent client returns False without
raising, and any failure raised inside the publish call is converted to the
return value False rather than propagated (the Lean embedding returns `Bool`
totally, so no exception escapes). -/
theorem c6_publish_failure_handling :
    (∀ (topic : String) (payload : Rec),
      publish_to_aws_iot none topic payload = false) ∧
    (∀ (c : IotClient) (topic : String) (payload : Rec) (e : String),
      c.publishOutcome topic payload = Except.error e →
      publish_to_aws_iot (some c) topic payload = false) := by
  constructor
  · intro t p
    rfl
  · intro c t p e h
    simp [publish_to_aws_iot, h]

/-- Witness for C6: the absent client and an always-raising client both
yield False on a concrete publish. -/
theorem c6_witness :
    publish_to_aws_iot none "agriculture/test" [] = false ∧
    publish_to_aws_iot (some failingClient) "agriculture/test" [] = false :=
  ⟨c6_publish_failure_handling.1 "agriculture/test" [],
   c6_publish_failure_handling.2 failingClient "agriculture/test" []
     "publish failed" rfl⟩

/-- A concrete edge-stage-shaped record with motion, impact, obstacle and
proximity-critical all set. -/
def fogInputFixture : Rec :=
  [ ("gyroscope_analysis", Value.dict
      [ ("stability_score", Scalar.num 1),
        ("motion_detected", Scalar.bool true) ]),
    ("accelerometer_analysis", Value.dict
      [ ("impact_detected", Scalar.bool true),
        ("activity_level", Scalar.str "high") ]),
    ("proximity_analysis", Value.dict
      [ ("object_nearby", Scalar.bool true),
        ("alert_level", Scalar.str "critical") ]) ]

/-- A concrete fog-stage-shaped record with a critical alert level. -/
def cloudInputFixture : Rec :=
  [ ("health_issues", Value.strList
      ["EXCESSIVE_MOVEMENT", "IMPACT_DETECTED", "OBSTACLE_DETECTED"]),
    ("issue_count", Value.scalar (Scalar.num 3)),
    ("alert_level", Value.scalar (Scalar.str "critical")) ]

/-- Claim C3: on any edge-stage record with both impact_detected and
motion_detected true, the fog stage assigns alert_level "high" or
"critical", never "normal" or "medium". -/
theorem c3_fog_severity_precedence (d : Rec) (nb : Bool) (pl : Scalar)
    (hm : getBoolField d "gyroscope_analysis" "motion_detected" = some true)
    (hi : getBoolField d "accelerometer_analysis" "impact_detected"
      = some true)
    (hn : getBoolField d "proximity_analysis" "object_nearby" = some nb)
    (hp : getScalarField d "proximity_analysis" "alert_level" = some pl) :
    ∃ f, analyze_health_data d = some f ∧
      (getV f "alert_level" = some (Value.scalar (Scalar.str "high")) ∨
       getV f "alert_level" = some (Value.scalar (Scalar.str "critical"))) ∧
      getV f "alert_level" ≠ some (Value.scalar (Scalar.str "normal")) ∧
      getV f "alert_level" ≠ some (Value.scalar (Scalar.str "medium")) := by
  unfold analyze_health_data
  rw [hm, hi, hn]
  cases nb with
  | false =>
    refine ⟨_, rfl, ?_⟩
    simp only [getV_setV, String.reduceEq, reduceIte, and_false, and_true,
      if_false, if_true]
    simp [getV_setV]
  | true =>
    rw [hp]
    by_cases hpl : pl = Scalar.str "critical"
    · refine ⟨_, rfl, ?_⟩
      simp only [hpl, getV_setV, String.reduceEq, reduceIte, and_false,
        and_true, if_false, if_true]
      split <;> simp [getV_setV]
    · refine ⟨_, rfl, ?_⟩
      simp only [getV_setV, String.reduceEq, reduceIte, if_neg hpl,
        and_false, and_true, if_false, if_true]
      simp [getV_setV]

/-- Witness for C3 at a concrete record with motion, impact, obstacle
and proximity-critical all set. -/
theorem c3_witness :
    ∃ f, analyze_health_data fogInputFixture = some f ∧
      (getV f "alert_level" = some (Value.scalar (Scalar.str "high")) ∨
       getV f "alert_level" = some (Value.scalar (Scalar.str "critical"))) ∧
      getV f "alert_level" ≠ some (Value.scalar (Scalar.str "normal")) ∧
      getV f "alert_level" ≠ some (Value.scalar (Scalar.str "medium")) :=
  c3_fog_severity_precedence fogInputFixture true (Scalar.str "critical")
    rfl rfl rfl rfl

/-- Evaluation of the cloud stage: it succeeds on any record carrying a
numeric issue_count, a health_issues string list and an alert_level, and
recommends the single action selected by the alert level. -/
theorem cloud_eval (d : Rec) (cc q : ℚ) (issues : List String) (a : Value)
    (hq : getNumTop d "issue_count" = some q)
    (hl : getStrListTop d "health_issues" = some issues)
    (ha : getV d "alert_level" = some a) :
    ∃ c, perform_cloud_analysis d cc = some c ∧
      getV c "recommended_actions" = some (Value.strList
        [if a = Value.scalar (Scalar.str "critical") then "EMERGENCY_ALERT"
         else if a = Value.scalar (Scalar.str "high") ∨
             a = Value.scalar (Scalar.str "medium") then "HEALTH_NOTIFICATION"
         else "ROUTINE_MONITORING"]) := by
  unfold perform_cloud_analysis
  rw [hq, hl, ha]
  refine ⟨_, rfl, ?_⟩
  simp only [getV_setV, String.reduceEq, reduceIte]
  split_ifs <;> rfl

/-- Claim C4: the cloud action mapping is a total function of alert_level:
every fog-stage record gets exactly one recommended action, with "critical"
mapped to EMERGENCY_ALERT, "high" and "medium" to HEALTH_NOTIFICATION, and
"normal" to ROUTINE_MONITORING; the action is always one of the three. -/
theorem c4_cloud_action_mapping (d : Rec) (cc q : ℚ) (issues : List String)
    (lvl : String)
    (hq : getNumTop d "issue_count" = some q)
    (hl : getStrListTop d "health_issues" = some issues)
    (ha : getV d "alert_level" = some (Value.scalar (Scalar.str lvl))) :
    ∃ c act, perform_cloud_analysis d cc = some c ∧
      getV c "recommended_actions" = some (Value.strList [act]) ∧
      (lvl = "critical" → act = "EMERGENCY_ALERT") ∧
      (lvl = "high" → act = "HEALTH_NOTIFICATION") ∧
      (lvl = "medium" → act = "HEALTH_NOTIFICATION") ∧
      (lvl = "normal" → act = "ROUTINE_MONITORING") ∧
      (act = "EMERGENCY_ALERT" ∨ act = "HEALTH_NOTIFICATION" ∨
        act = "ROUTINE_MONITORING") := by
  obtain ⟨c, hc, hra⟩ := cloud_eval d cc q issues _ hq hl ha
  simp only [Value.scalar.injEq, Scalar.str.injEq] at hra
  refine ⟨c, _, hc, hra, ?_, ?_, ?_, ?_, ?_⟩
  · intro h; simp [h]
  · intro h; simp [h]
  · intro h; simp [h]
  · intro h; simp [h]
  · by_cases h1 : lvl = "critical" <;> by_cases h2 : lvl = "high" <;>
      by_cases h3 : lvl = "medium" <;> simp [h1, h2, h3]

/-- Witness for C4 at a concrete fog record with alert_level critical. -/
theorem c4_witness :
    ∃ c act, perform_cloud_analysis cloudInputFixture (9/10) = some c ∧
      getV c "recommended_actions" = some (Value.strList [act]) ∧
      ("critical" = "critical" → act = "EMERGENCY_ALERT") ∧
      ("critical" = "high" → act = "HEALTH_NOTIFICATION") ∧
      ("critical" = "medium" → act = "HEALTH_NOTIFICATION") ∧
      ("critical" = "normal" → act = "ROUTINE_MONITORING") ∧
      (act = "EMERGENCY_ALERT" ∨ act = "HEALTH_NOTIFICATION" ∨
        act = "ROUTINE_MONITORING") :=
  c4_cloud_action_mapping cloudInputFixture (9/10) 3
    ["EXCESSIVE_MOVEMENT", "IMPACT_DETECTED", "OBSTACLE_DETECTED"]
    "critical" rfl rfl rfl

/-- The actuator acknowledgement for EMERGENCY_ALERT. -/
def emergResp (ts : String) : Rec :=
  [ ("actuator", Value.scalar (Scalar.str "a-emergency-alert")),
    ("action", Value.scalar (Scalar.str "EMERGENCY_ALERT")),
    ("status", Value.scalar (Scalar.str "executed")),
    ("latency_ms", Value.scalar (Scalar.num 0.5)),
    ("gateway_device", Value.scalar (Scalar.str "edge-device")),
    ("timestamp", Value.scalar (Scalar.str ts)) ]

/-- The actuator acknowledgement for HEALTH_NOTIFICATION. -/
def healthResp (ts : String) : Rec :=
  [ ("actuator", Value.scalar (Scalar.str "a-health-notification")),
    ("action", Value.scalar (Scalar.str "HEALTH_NOTIFICATION")),
    ("status", Value.scalar (Scalar.str "executed")),
    ("latency_ms", Value.scalar (Scalar.num 0.8)),
    ("gateway_device", Value.scalar (Scalar.str "edge-device")),
    ("timestamp", Value.scalar (Scalar.str ts)) ]

/-- The actuator acknowledgement for ROUTINE_MONITORING. -/
def routineResp (ts : String) : Rec :=
  [ ("actuator", Value.scalar (Scalar.str "a-routine-monitor")),
    ("action", Value.scalar (Scalar.str "ROUTINE_MONITORING")),
    ("status", Value.scalar (Scalar.str "executed")),
    ("latency_ms", Value.scalar (Scalar.num 0.3)),
    ("gateway_device", Value.scalar (Scalar.str "edge-device")),
    ("timestamp", Value.scalar (Scalar.str ts)) ]

/-- Claim C9: for every fog-stage record the cloud stage emits exactly one
recommended action, and the actuator responder applied to the cloud output
emits exactly one acknowledgement, whose latency_ms is 0.5 for
EMERGENCY_ALERT, 0.8 for HEALTH_NOTIFICATION and 0.3 for
ROUTINE_MONITORING. -/
theorem c9_single_action_single_response (d : Rec) (cc q : ℚ)
    (issues : List String) (a : Value) (ts : String)
    (hq : getNumTop d "issue_count" = some q)
    (hl : getStrListTop d "health_issues" = some issues)
    (ha : getV d "alert_level" = some a) :
    ∃ c act r, perform_cloud_analysis d cc = some c ∧
      getV c "recommended_actions" = some (Value.strList [act]) ∧
      simulate_actuator_responses c ts = some [r] ∧
      getV r "action" = some (Value.scalar (Scalar.str act)) ∧
      getV r "latency_ms" = some (Value.scalar (Scalar.num
        (if act = "EMERGENCY_ALERT" then 0.5
         else if act = "HEALTH_NOTIFICATION" then 0.8 else 0.3))) := by
  obtain ⟨c, hc, hra⟩ := cloud_eval d cc q issues a hq hl ha
  by_cases h1 : a = Value.scalar (Scalar.str "critical")
  · rw [if_pos h1] at hra
    refine ⟨c, "EMERGENCY_ALERT", emergResp ts, hc, hra, ?_, ?_, ?_⟩
    · simp only [simulate_actuator_responses, getStrListTop, hra]
      rfl
    · rfl
    · rfl
  · by_cases h2 : a = Value.scalar (Scalar.str "high") ∨
        a = Value.scalar (Scalar.str "medium")
    · rw [if_neg h1, if_pos h2] at hra
      refine ⟨c, "HEALTH_NOTIFICATION", healthResp ts, hc, hra, ?_, ?_, ?_⟩
      · simp only [simulate_actuator_responses, getStrListTop, hra]
        rfl
      · rfl
      · rfl
    · rw [if_neg h1, if_neg h2] at hra
      refine ⟨c, "ROUTINE_MONITORING", routineResp ts, hc, hra, ?_, ?_, ?_⟩
      · simp only [simulate_actuator_responses, getStrListTop, hra]
        rfl
      · rfl
      · rfl

/-- Witness for C9 at a concrete fog record with alert_level critical. -/
theorem c9_witness :
    ∃ c act r, perform_cloud_analysis cloudInputFixture (9/10) = some c ∧
      getV c "recommended_actions" = some (Value.strList [act]) ∧
      simulate_actuator_responses c "t1" = some [r] ∧
      getV r "action" = some (Value.scalar (Scalar.str act)) ∧
      getV r "latency_ms" = some (Value.scalar (Scalar.num
        (if act = "EMERGENCY_ALERT" then 0.5
         else if act = "HEALTH_NOTIFICATION" then 0.8 else 0.3))) :=
  c9_single_action_single_response cloudInputFixture (9/10) 3
    ["EXCESSIVE_MOVEMENT", "IMPACT_DETECTED", "OBSTACLE_DETECTED"]
    (Value.scalar (Scalar.str "critical")) "t1" rfl rfl rfl

/-- Evaluation of the fog stage's loop selection on any edge-shaped
record: the critical loop constants are chosen exactly when "GYROSCOPE"
occurs in the rendering of the input and the computed severity is
critical. -/
theorem fog_loop_eval (d : Rec) (m i nb : Bool) (pl : Scalar)
    (hm : getBoolField d "gyroscope_analysis" "motion_detected" = some m)
    (hi : getBoolField d "accelerometer_analysis" "impact_detected" = some i)
    (hn : getBoolField d "proximity_analysis" "object_nearby" = some nb)
    (hp : getScalarField d "proximity_analysis" "alert_level" = some pl) :
    ∃ f, analyze_health_data d = some f ∧
      (if strContains (pyStr d) "GYROSCOPE" = true ∧
          getV f "alert_level" = some (Value.scalar (Scalar.str "critical"))
       then
        getV f "loop_delay_ms"
            = some (Value.scalar (Scalar.num critLoopDelay)) ∧
        getV f "loop_type"
          = some (Value.scalar (Scalar.str "critical_health_loop"))
       else
        getV f "loop_delay_ms"
            = some (Value.scalar (Scalar.num routineLoopDelay)) ∧
        getV f "loop_type"
          = some (Value.scalar (Scalar.str "routine_monitoring_loop"))) := by
  unfold analyze_health_data
  rw [hm, hi, hn]
  rcases Bool.eq_false_or_eq_true (strContains (pyStr d) "GYROSCOPE")
    with hg | hg <;> rw [hg] <;> cases nb <;> cases m <;> cases i
  all_goals first
    | (refine ⟨_, rfl, ?_⟩
       simp [hg, getV_setV])
    | (rw [hp]
       by_cases hpl : pl = Scalar.str "critical"
       · subst hpl
         refine ⟨_, rfl, ?_⟩
         simp [hg, getV_setV]
       · simp only [Option.some_bind, Option.bind_some, hpl, if_false]
         refine ⟨_, rfl, ?_⟩
         simp [hg, hpl, getV_setV])

/-- Claim C5: the fog stage sets loop_delay_ms to exactly one of two
hardcoded constants: the critical-loop constant (with loop_type
critical_health_loop) if and only if the computed severity is "critical"
and "GYROSCOPE" appears textually in the string rendering of the input
record, and otherwise the routine constant (with loop_type
routine_monitoring_loop). -/
theorem c5_loop_selection (d : Rec) (m i nb : Bool) (pl : Scalar)
    (hm : getBoolField d "gyroscope_analysis" "motion_detected" = some m)
    (hi : getBoolField d "accelerometer_analysis" "impact_detected" = some i)
    (hn : getBoolField d "proximity_analysis" "object_nearby" = some nb)
    (hp : getScalarField d "proximity_analysis" "alert_level" = some pl) :
    ∃ f, analyze_health_data d = some f ∧
      (if strContains (pyStr d) "GYROSCOPE" = true ∧
          getV f "alert_level" = some (Value.scalar (Scalar.str "critical"))
       then
        getV f "loop_delay_ms"
            = some (Value.scalar (Scalar.num critLoopDelay)) ∧
        getV f "loop_type"
          = some (Value.scalar (Scalar.str "critical_health_loop"))
       else
        getV f "loop_delay_ms"
            = some (Value.scalar (Scalar.num routineLoopDelay)) ∧
        getV f "loop_type"
          = some (Value.scalar (Scalar.str "routine_monitoring_loop"))) :=
  fog_loop_eval d m i nb pl hm hi hn hp

/-- Witness for C5 at a concrete edge-shaped record (whose rendering does
not contain "GYROSCOPE", so the routine loop is selected even though the
severity is critical). -/
theorem c5_witness :
    ∃ f, analyze_health_data fogInputFixture = some f ∧
      (if strContains (pyStr fogInputFixture) "GYROSCOPE" = true ∧
          getV f "alert_level" = some (Value.scalar (Scalar.str "critical"))
       then
        getV f "loop_delay_ms"
            = some (Value.scalar (Scalar.num critLoopDelay)) ∧
        getV f "loop_type"
          = some (Value.scalar (Scalar.str "critical_health_loop"))
       else
        getV f "loop_delay_ms"
            = some (Value.scalar (Scalar.num routineLoopDelay)) ∧
        getV f "loop_type"
          = some (Value.scalar (Scalar.str "routine_monitoring_loop"))) :=
  c5_loop_selection fogInputFixture true true true (Scalar.str "critical")
    rfl rfl rfl rfl

/-- The four-stage pipeline run on the fixed reading (angular_velocity 6.0,
magnitude 16.0, distance 5.0), with concrete values for the random draws
and timestamps. -/
def c1_run : Option (Rec × Rec × Rec × List Rec) := do
  let e ← process_biometric_data fixedReading (1/2)
  let f ← analyze_health_data e
  let c ← perform_cloud_analysis f (9/10)
  let rs ← simulate_actuator_responses c "t1"
  pure (e, f, c, rs)

set_option maxRecDepth 10000

/-- Claim C1: feeding the fixed reading (angular_velocity 6.0, magnitude
16.0, distance 5.0) through the edge, fog, cloud and actuator stages yields
a record with alert_level "critical", recommended_actions containing
EMERGENCY_ALERT, and exactly one actuator response whose action field is
EMERGENCY_ALERT. -/
theorem c1_end_to_end :
    ∃ e f c rs, c1_run = some (e, f, c, rs) ∧
      getV c "alert_level" = some (Value.scalar (Scalar.str "critical")) ∧
      (∃ acts, getV c "recommended_actions" = some (Value.strList acts) ∧
        "EMERGENCY_ALERT" ∈ acts) ∧
      rs.length = 1 ∧
      ∀ r ∈ rs, getV r "action"
        = some (Value.scalar (Scalar.str "EMERGENCY_ALERT")) := by
  refine ⟨_, _, _, _, rfl, ?_, ⟨["EMERGENCY_ALERT"], ?_, ?_⟩, ?_, ?_⟩
  · rfl
  · rfl
  · decide
  · rfl
  · decide

/-! ## String-rendering lemmas for the textual GYROSCOPE check -/

theorem toList_append (a b : String) :
    (a ++ b).toList = a.toList ++ b.toList := rfl

theorem infix_joinComma (s : String) (l : List String) (h : s ∈ l) :
    s.toList <:+: (joinComma l).toList := by
  induction l with
  | nil => simp at h
  | cons a t ih =>
    cases t with
    | nil =>
      rw [List.mem_singleton] at h
      subst h
      exact List.infix_refl _
    | cons b t2 =>
      rcases List.mem_cons.mp h with h1 | h2
      · subst h1
        show s.toList <:+: (s ++ ", " ++ joinComma (b :: t2)).toList
        rw [toList_append, toList_append]
        exact ((List.prefix_append _ _).trans
          (List.prefix_append _ _)).isInfix
      · have h3 := ih h2
        show s.toList <:+: (a ++ ", " ++ joinComma (b :: t2)).toList
        rw [toList_append]
        exact h3.trans (List.suffix_append _ _).isInfix

theorem infix_pyStrEntry (k : String) (v : Value) :
    k.toList <:+: (pyStrEntry (k, v)).toList := by
  show k.toList <:+: ("'" ++ k ++ "': " ++ pyStrValue v).toList
  rw [toList_append, toList_append, toList_append]
  rw [List.append_assoc, List.append_assoc]
  exact List.infix_append' _ _ _

/-- Any key of a record occurs textually in its Python rendering. -/
theorem pyStr_contains_key (d : Rec) (k : String) (v : Value)
    (h : (k, v) ∈ d) : strContains (pyStr d) k = true := by
  have h1 : pyStrEntry (k, v) ∈ d.map pyStrEntry :=
    List.mem_map_of_mem _ h
  have h2 : (pyStrEntry (k, v)).toList
      <:+: (joinComma (d.map pyStrEntry)).toList :=
    infix_joinComma _ _ h1
  have h3 : k.toList <:+: (joinComma (d.map pyStrEntry)).toList :=
    (infix_pyStrEntry k v).trans h2
  have h4 : k.toList <:+: (pyStr d).toList := by
    show k.toList
      <:+: ("\x7b" ++ joinComma (d.map pyStrEntry) ++ "\x7d").toList
    rw [toList_append, toList_append]
    exact h3.trans (List.infix_append _ _ _)
  exact decide_eq_true h4

/-- The keys the edge stage assigns after spreading its input (an input
entry at one of these keys is overwritten). -/
def edgeAssignedKeys : List String :=
  [ "gyroscope_analysis", "accelerometer_analysis", "proximity_analysis",
    "biometric_to_analysis_tuple" ]

/-- All stage-specific keys the edge stage can add. -/
def edgeAddedKeys : List String :=
  [ "device_id", "application_id", "processed_at", "processing_delay_ms",
    "gyroscope_analysis", "accelerometer_analysis", "proximity_analysis",
    "biometric_to_analysis_tuple" ]

/-- The keys the fog stage assigns. -/
def fogAddedKeys : List String :=
  [ "health_issues", "issue_count", "alert_level", "analyzed_at",
    "loop_delay_ms", "loop_type", "analysis_to_cloud_tuple" ]

/-- The keys the cloud stage assigns. -/
def cloudAddedKeys : List String :=
  [ "cloud_patterns", "cloud_confidence", "recommended_actions",
    "cloud_analysis_at", "execution_time_ms", "energy_consumption" ]

theorem getV_setV_cases (d : Rec) (k k2 : String) (v : Value)
    (h : getV (setV d k v) k2 ≠ none) : getV d k2 ≠ none ∨ k2 = k := by
  rw [getV_setV] at h
  by_cases hk : k2 = k
  · exact Or.inr hk
  · rw [if_neg hk] at h
    exact Or.inl h

theorem getV_cons_cases (p : String × Value) (t : Rec) (k : String)
    (h : getV (p :: t) k ≠ none) : k = p.1 ∨ getV t k ≠ none := by
  rw [getV_cons] at h
  by_cases hp : (p.1 == k) = true
  · exact Or.inl (by rwa [beq_iff_eq, eq_comm] at hp)
  · rw [if_neg hp] at h
    exact Or.inr h

/-- Evaluation of the edge stage: success and derived fields on any record
carrying the three sensor readings, preservation of every input key other
than the four fields the stage assigns, and the fact that every output key
is an input key or a stage-added key. -/
theorem edge_eval (raw : Rec) (s av mag dist : ℚ)
    (hnd : (raw.map Prod.fst).Nodup)
    (hav : getNumField raw "GYROSCOPE" "angular_velocity" = some av)
    (hmag : getNumField raw "ACCELEROMETER" "magnitude" = some mag)
    (hdist : getNumField raw "PROXIMITY" "distance" = some dist) :
    ∃ e, process_biometric_data raw s = some e ∧
      getBoolField e "gyroscope_analysis" "motion_detected"
        = some (decide (|av| > 5)) ∧
      getBoolField e "accelerometer_analysis" "impact_detected"
        = some (decide (mag > 15)) ∧
      getBoolField e "proximity_analysis" "object_nearby"
        = some (decide (dist < 50)) ∧
      getScalarField e "proximity_analysis" "alert_level"
        = some (Scalar.str (if dist < 10 then "critical" else "normal")) ∧
      (∀ k v, getV raw k = some v →
        k ≠ "gyroscope_analysis" → k ≠ "accelerometer_analysis" →
        k ≠ "proximity_analysis" → k ≠ "biometric_to_analysis_tuple" →
        getV e k = some v) ∧
      (∀ k2, getV e k2 ≠ none →
        getV raw k2 ≠ none ∨ k2 ∈ edgeAddedKeys) := by
  unfold process_biometric_data
  rw [hav, hmag, hdist]
  refine ⟨_, rfl, ?_, ?_, ?_, ?_, ?_, ?_⟩
  · simp [getBoolField, getScalarField, getDictField, getV_setV, getS,
      List.find?]
  · simp [getBoolField, getScalarField, getDictField, getV_setV, getS,
      List.find?]
  · simp [getBoolField, getScalarField, getDictField, getV_setV, getS,
      List.find?]
  · simp [getBoolField, getScalarField, getDictField, getV_setV, getS,
      List.find?]
  · intro k v hkv h1 h2 h3 h4
    rw [getV_setV, if_neg h4, getV_setV, if_neg h3, getV_setV, if_neg h2,
      getV_setV, if_neg h1]
    exact getV_merge_of_some raw _ k v hnd hkv
  · intro k2 h
    rcases getV_setV_cases _ _ _ _ h with h | rfl
    swap
    · exact Or.inr (by simp [edgeAddedKeys])
    rcases getV_setV_cases _ _ _ _ h with h | rfl
    swap
    · exact Or.inr (by simp [edgeAddedKeys])
    rcases getV_setV_cases _ _ _ _ h with h | rfl
    swap
    · exact Or.inr (by simp [edgeAddedKeys])
    rcases getV_setV_cases _ _ _ _ h with h | rfl
    swap
    · exact Or.inr (by simp [edgeAddedKeys])
    rcases getV_merge_cases raw _ k2 h with h | h
    swap
    · exact Or.inl h
    rcases getV_cons_cases _ _ _ h with rfl | h
    · exact Or.inr (by simp [edgeAddedKeys])
    rcases getV_cons_cases _ _ _ h with rfl | h
    · exact Or.inr (by simp [edgeAddedKeys])
    rcases getV_cons_cases _ _ _ h with rfl | h
    · exact Or.inr (by simp [edgeAddedKeys])
    rcases getV_cons_cases _ _ _ h with rfl | h
    · exact Or.inr (by simp [edgeAddedKeys])
    exact absurd rfl h

/-- Claim C10: every record produced by the edge stage from a generated
sensor reading contains the key GYROSCOPE, so the fog stage's textual check
is always satisfied and the critical_health_loop constants are selected if
and only if the computed alert_level is "critical". -/
theorem c10_generated_loop_iff_critical
    (gx gy gz av ax ay az mag dist sig : ℚ) (obst : Bool) (ts : String)
    (s : ℚ) :
    ∃ e f,
      process_biometric_data
        (generate_precision_agriculture_sensor_data
          gx gy gz av ax ay az mag dist sig obst ts) s = some e ∧
      strContains (pyStr e) "GYROSCOPE" = true ∧
      analyze_health_data e = some f ∧
      ((getV f "loop_delay_ms"
            = some (Value.scalar (Scalar.num critLoopDelay)) ∧
        getV f "loop_type"
          = some (Value.scalar (Scalar.str "critical_health_loop")))
        ↔ getV f "alert_level"
            = some (Value.scalar (Scalar.str "critical"))) := by
  obtain ⟨e, he, hm, hi, hn, hp, hpres, _⟩ :=
    edge_eval
      (generate_precision_agriculture_sensor_data
        gx gy gz av ax ay az mag dist sig obst ts) s av mag dist
      (by simp [generate_precision_agriculture_sensor_data])
      rfl rfl rfl
  have hgy : getV e "GYROSCOPE" = some (Value.dict
      [ ("x_axis", Scalar.num gx), ("y_axis", Scalar.num gy),
        ("z_axis", Scalar.num gz),
        ("angular_velocity", Scalar.num av) ]) :=
    hpres "GYROSCOPE" _ rfl (by decide) (by decide) (by decide) (by decide)
  have hg : strContains (pyStr e) "GYROSCOPE" = true :=
    pyStr_contains_key e "GYROSCOPE" _ (getV_some_mem _ _ _ hgy)
  obtain ⟨f, hf, hite⟩ := fog_loop_eval e _ _ _ _ hm hi hn hp
  rw [hg] at hite
  refine ⟨e, f, he, hg, hf, ?_⟩
  by_cases hc : getV f "alert_level"
      = some (Value.scalar (Scalar.str "critical"))
  · rw [if_pos ⟨rfl, hc⟩] at hite
    exact ⟨fun _ => hc, fun _ => hite⟩
  · rw [if_neg (fun hcon => hc hcon.2)] at hite
    constructor
    · intro hA
      exact absurd (hite.2.symm.trans hA.2) (by simp)
    · intro hcrit
      exact absurd hcrit hc

/-! ## Masking machinery: erasing randomly drawn fields -/

/-- Replace the value stored at key `k` (wherever it occurs) by `g` of it. -/
def maskKey (k : String) (g : Value → Value) (r : Rec) : Rec :=
  r.map (fun p => if p.1 == k then (p.1, g p.2) else p)

theorem hasKey_maskKey (k : String) (g : Value → Value) (d : Rec)
    (k2 : String) : hasKey (maskKey k g d) k2 = hasKey d k2 := by
  induction d with
  | nil => rfl
  | cons p t ih =>
    show hasKey ((if p.1 == k then (p.1, g p.2) else p) :: maskKey k g t) k2
      = hasKey (p :: t) k2
    rw [hasKey_cons, hasKey_cons, ih]
    by_cases hp : (p.1 == k) = true
    · rw [if_pos hp]
    · rw [if_neg hp]

theorem maskKey_updV (k : String) (g : Value → Value) (d : Rec)
    (k2 : String) (v : Value) :
    maskKey k g (updV d k2 v)
      = updV (maskKey k g d) k2 (if k2 == k then g v else v) := by
  induction d with
  | nil => rfl
  | cons p t ih =>
    show maskKey k g ((if p.1 == k2 then (k2, v) else p) :: updV t k2 v) = _
    show (if (if p.1 == k2 then (k2, v) else p).1 == k then _ else _)
        :: maskKey k g (updV t k2 v)
      = updV ((if p.1 == k then (p.1, g p.2) else p) :: maskKey k g t) k2 _
    rw [ih]
    by_cases h2 : (p.1 == k2) = true <;>
      by_cases hk : (p.1 == k) = true <;>
      simp_all [updV, beq_iff_eq]

theorem maskKey_append (k : String) (g : Value → Value) (d e : Rec) :
    maskKey k g (d ++ e) = maskKey k g d ++ maskKey k g e :=
  List.map_append _ d e

theorem maskKey_setV (k : String) (g : Value → Value) (d : Rec)
    (k2 : String) (v : Value) :
    maskKey k g (setV d k2 v)
      = setV (maskKey k g d) k2 (if k2 == k then g v else v) := by
  unfold setV
  rw [hasKey_maskKey]
  by_cases hh : hasKey d k2 = true
  · rw [if_pos hh, if_pos hh]
    exact maskKey_updV k g d k2 v
  · rw [if_neg hh, if_neg hh, maskKey_append]
    show _ ++ [if (k2 == k) = true then _ else _] = _
    by_cases hk : (k2 == k) = true
    · rw [if_pos hk, if_pos hk]
    · rw [if_neg hk, if_neg hk]

/-- Zero out the stability_score inside a gyroscope_analysis dictionary. -/
def maskGyro : Value → Value
  | Value.dict sd => Value.dict (sd.map (fun q =>
      if q.1 == "stability_score" then (q.1, Scalar.num 0) else q))
  | v => v

/-- Erase the edge stage's random draw. -/
def maskStability : Rec → Rec := maskKey "gyroscope_analysis" maskGyro

/-- Erase the cloud stage's random draw. -/
def maskConfidence : Rec → Rec :=
  maskKey "cloud_confidence" (fun _ => Value.scalar (Scalar.num 0))

/-- Erase an actuator response's timestamp. -/
def maskTimestamp : Rec → Rec :=
  maskKey "timestamp" (fun _ => Value.scalar (Scalar.str ""))

theorem maskTs_filterMap (acts : List String) (t1 t2 : String) :
    (acts.filterMap (actuatorResponse t1)).map maskTimestamp
      = (acts.filterMap (actuatorResponse t2)).map maskTimestamp := by
  induction acts with
  | nil => rfl
  | cons a rest ih =>
    by_cases h1 : a = "EMERGENCY_ALERT"
    · subst h1
      show List.map maskTimestamp
          (emergResp t1 :: List.filterMap (actuatorResponse t1) rest)
        = List.map maskTimestamp
          (emergResp t2 :: List.filterMap (actuatorResponse t2) rest)
      rw [List.map_cons, List.map_cons, ih]
      rfl
    · by_cases h2 : a = "HEALTH_NOTIFICATION"
      · subst h2
        show List.map maskTimestamp
            (healthResp t1 :: List.filterMap (actuatorResponse t1) rest)
          = List.map maskTimestamp
            (healthResp t2 :: List.filterMap (actuatorResponse t2) rest)
        rw [List.map_cons, List.map_cons, ih]
        rfl
      · by_cases h3 : a = "ROUTINE_MONITORING"
        · subst h3
          show List.map maskTimestamp
              (routineResp t1 :: List.filterMap (actuatorResponse t1) rest)
            = List.map maskTimestamp
              (routineResp t2 :: List.filterMap (actuatorResponse t2) rest)
          rw [List.map_cons, List.map_cons, ih]
          rfl
        · have hnone : ∀ t, actuatorResponse t a = none := fun t => by
            simp [actuatorResponse, h1, h2, h3]
          rw [List.filterMap_cons, List.filterMap_cons, hnone t1, hnone t2]
          exact ih

/-- Claim C2 (amended): each stage is a pure function of its input record
and its explicitly sampled inputs.  Outputs of two runs agree after erasing
the randomly drawn stability_score (edge), cloud_confidence (cloud) and
response timestamps (actuator responder); the fog stage takes no sampled
input at all; and every stage succeeds on a record carrying the fields it
reads. -/
theorem c2_deterministic_mod_draws :
    (∀ (d : Rec) (s1 s2 : ℚ),
      (process_biometric_data d s1).map maskStability
        = (process_biometric_data d s2).map maskStability) ∧
    (∀ (d : Rec) (c1 c2 : ℚ),
      (perform_cloud_analysis d c1).map maskConfidence
        = (perform_cloud_analysis d c2).map maskConfidence) ∧
    (∀ (d : Rec) (t1 t2 : String),
      (simulate_actuator_responses d t1).map (List.map maskTimestamp)
        = (simulate_actuator_responses d t2).map (List.map maskTimestamp)) ∧
    (∀ (d : Rec) (av mag dist s : ℚ),
      getNumField d "GYROSCOPE" "angular_velocity" = some av →
      getNumField d "ACCELEROMETER" "magnitude" = some mag →
      getNumField d "PROXIMITY" "distance" = some dist →
      (process_biometric_data d s).isSome = true) ∧
    (∀ (d : Rec) (m i nb : Bool) (pl : Scalar),
      getBoolField d "gyroscope_analysis" "motion_detected" = some m →
      getBoolField d "accelerometer_analysis" "impact_detected" = some i →
      getBoolField d "proximity_analysis" "object_nearby" = some nb →
      getScalarField d "proximity_analysis" "alert_level" = some pl →
      (analyze_health_data d).isSome = true) ∧
    (∀ (d : Rec) (q : ℚ) (issues : List String) (a : Value) (cc : ℚ),
      getNumTop d "issue_count" = some q →
      getStrListTop d "health_issues" = some issues →
      getV d "alert_level" = some a →
      (perform_cloud_analysis d cc).isSome = true) ∧
    (∀ (d : Rec) (acts : List String) (ts : String),
      getStrListTop d "recommended_actions" = some acts →
      (simulate_actuator_responses d ts).isSome = true) := by
  refine ⟨?_, ?_, ?_, ?_, ?_, ?_, ?_⟩
  · intro d s1 s2
    unfold process_biometric_data
    cases hav : getNumField d "GYROSCOPE" "angular_velocity" with
    | none => rfl
    | some av =>
      cases hmag : getNumField d "ACCELEROMETER" "magnitude" with
      | none => rfl
      | some mag =>
        cases hdist : getNumField d "PROXIMITY" "distance" with
        | none => rfl
        | some dist =>
          simp only [Option.bind_some, Option.some_bind, Option.map_some]
          simp [maskStability, maskKey_setV, maskGyro]
  · intro d c1 c2
    unfold perform_cloud_analysis
    cases hq : getNumTop d "issue_count" with
    | none => rfl
    | some q =>
      cases hl : getStrListTop d "health_issues" with
      | none => rfl
      | some issues =>
        cases ha : getV d "alert_level" with
        | none => rfl
        | some a =>
          simp only [Option.bind_some, Option.some_bind, Option.map_some]
          simp [maskConfidence, maskKey_setV]
  · intro d t1 t2
    unfold simulate_actuator_responses
    cases hacts : getStrListTop d "recommended_actions" with
    | none => rfl
    | some acts =>
      simp only [Option.bind_some, Option.some_bind, Option.map_some,
        Option.pure_def]
      exact congrArg some (maskTs_filterMap acts t1 t2)
  · intro d av mag dist s hav hmag hdist
    unfold process_biometric_data
    rw [hav, hmag, hdist]
    rfl
  · intro d m i nb pl hm hi hn hp
    obtain ⟨f, hf, _⟩ := fog_loop_eval d m i nb pl hm hi hn hp
    simp [hf]
  · intro d q issues a cc hq hl ha
    obtain ⟨c, hc, _⟩ := cloud_eval d cc q issues a hq hl ha
    simp [hc]
  · intro d acts ts hacts
    unfold simulate_actuator_responses
    rw [hacts]
    rfl

/-- Witness for C2 (amended), instantiated at the fixed reading and
concrete fog/cloud fixtures. -/
theorem c2_witness :
    (process_biometric_data fixedReading (1/2)).map maskStability
      = (process_biometric_data fixedReading (3/5)).map maskStability ∧
    (process_biometric_data fixedReading (1/2)).isSome = true ∧
    (analyze_health_data fogInputFixture).isSome = true ∧
    (perform_cloud_analysis cloudInputFixture (9/10)).isSome = true ∧
    (simulate_actuator_responses
      (setV cloudInputFixture "recommended_actions"
        (Value.strList ["EMERGENCY_ALERT"])) "t1").isSome = true :=
  ⟨c2_deterministic_mod_draws.1 fixedReading (1/2) (3/5),
   c2_deterministic_mod_draws.2.2.2.1 fixedReading 6 16 5 (1/2)
     rfl rfl rfl,
   c2_deterministic_mod_draws.2.2.2.2.1 fogInputFixture true true true
     (Scalar.str "critical") rfl rfl rfl rfl,
   c2_deterministic_mod_draws.2.2.2.2.2.1 cloudInputFixture 3
     ["EXCESSIVE_MOVEMENT", "IMPACT_DETECTED", "OBSTACLE_DETECTED"]
     (Value.scalar (Scalar.str "critical")) (9/10) rfl rfl rfl,
   c2_deterministic_mod_draws.2.2.2.2.2.2 _ ["EMERGENCY_ALERT"] "t1" rfl⟩

/-- Counterexample to Claim C2 as stated: the edge stage draws a random
stability_score, so two runs on the same input record differ (here with the
two legal draws 0.5 and 0.6). -/
theorem c2_counterexample :
    (process_biometric_data fixedReading (1/2)).map
        (fun e => getScalarField e "gyroscope_analysis" "stability_score")
      = some (some (Scalar.num (1/2))) ∧
    (process_biometric_data fixedReading (3/5)).map
        (fun e => getScalarField e "gyroscope_analysis" "stability_score")
      = some (some (Scalar.num (3/5))) ∧
    process_biometric_data fixedReading (1/2)
      ≠ process_biometric_data fixedReading (3/5) := by
  have e1 : (process_biometric_data fixedReading (1/2)).map
      (fun e => getScalarField e "gyroscope_analysis" "stability_score")
    = some (some (Scalar.num (1/2))) := rfl
  have e2 : (process_biometric_data fixedReading (3/5)).map
      (fun e => getScalarField e "gyroscope_analysis" "stability_score")
    = some (some (Scalar.num (3/5))) := rfl
  refine ⟨e1, e2, fun h => ?_⟩
  have h2 := congrArg (Option.map
    (fun e => getScalarField e "gyroscope_analysis" "stability_score")) h
  rw [e1, e2] at h2
  simp only [Option.some.injEq, Scalar.num.injEq] at h2
  norm_num at h2

/-- Fog-stage frame lemma: keys other than the seven assigned fields are
preserved, and every output key is an input key or an assigned field. -/
theorem fog_superset (d : Rec) (m i nb : Bool) (pl : Scalar)
    (hm : getBoolField d "gyroscope_analysis" "motion_detected" = some m)
    (hi : getBoolField d "accelerometer_analysis" "impact_detected" = some i)
    (hn : getBoolField d "proximity_analysis" "object_nearby" = some nb)
    (hp : getScalarField d "proximity_analysis" "alert_level" = some pl) :
    ∃ f, analyze_health_data d = some f ∧
      (∀ k v, getV d k = some v → k ∉ fogAddedKeys → getV f k = some v) ∧
      (∀ k2, getV f k2 ≠ none → getV d k2 ≠ none ∨ k2 ∈ fogAddedKeys) := by
  unfold analyze_health_data
  rw [hm, hi, hn]
  have hmain : ∀ (r0 : Rec), r0 = d →
      ∀ (issues : List String) (lvl : String),
      (∀ k v, getV d k = some v → k ∉ fogAddedKeys →
        getV (setV (if strContains (pyStr d) "GYROSCOPE" = true ∧
            lvl = "critical" then
          setV (setV (setV (setV (setV (setV r0 "health_issues"
            (Value.strList issues)) "issue_count"
            (Value.scalar (Scalar.num issues.length))) "alert_level"
            (Value.scalar (Scalar.str lvl))) "analyzed_at"
            (Value.scalar (Scalar.str "fog-node"))) "loop_delay_ms"
            (Value.scalar (Scalar.num critLoopDelay))) "loop_type"
            (Value.scalar (Scalar.str "critical_health_loop"))
        else
          setV (setV (setV (setV (setV (setV r0 "health_issues"
            (Value.strList issues)) "issue_count"
            (Value.scalar (Scalar.num issues.length))) "alert_level"
            (Value.scalar (Scalar.str lvl))) "analyzed_at"
            (Value.scalar (Scalar.str "fog-node"))) "loop_delay_ms"
            (Value.scalar (Scalar.num routineLoopDelay))) "loop_type"
            (Value.scalar (Scalar.str "routine_monitoring_loop")))
          "analysis_to_cloud_tuple" (Value.dict
            [ ("tuple_cpu_delay", Scalar.num 0.21000000000003638),
              ("data_size", Scalar.num 2200),
              ("network_delay", Scalar.num 1600) ])) k = some v) ∧
      (∀ k2, getV (setV (if strContains (pyStr d) "GYROSCOPE" = true ∧
            lvl = "critical" then
          setV (setV (setV (setV (setV (setV r0 "health_issues"
            (Value.strList issues)) "issue_count"
            (Value.scalar (Scalar.num issues.length))) "alert_level"
            (Value.scalar (Scalar.str lvl))) "analyzed_at"
            (Value.scalar (Scalar.str "fog-node"))) "loop_delay_ms"
            (Value.scalar (Scalar.num critLoopDelay))) "loop_type"
            (Value.scalar (Scalar.str "critical_health_loop"))
        else
          setV (setV (setV (setV (setV (setV r0 "health_issues"
            (Value.strList issues)) "issue_count"
            (Value.scalar (Scalar.num issues.length))) "alert_level"
            (Value.scalar (Scalar.str lvl))) "analyzed_at"
            (Value.scalar (Scalar.str "fog-node"))) "loop_delay_ms"
            (Value.scalar (Scalar.num routineLoopDelay))) "loop_type"
            (Value.scalar (Scalar.str "routine_monitoring_loop")))
          "analysis_to_cloud_tuple" (Value.dict
            [ ("tuple_cpu_delay", Scalar.num 0.21000000000003638),
              ("data_size", Scalar.num 2200),
              ("network_delay", Scalar.num 1600) ])) k2 ≠ none →
        getV d k2 ≠ none ∨ k2 ∈ fogAddedKeys) := by
    intro r0 hr0 issues lvl
    subst hr0
    constructor
    · intro k v hkv hne
      simp only [fogAddedKeys, List.mem_cons, List.not_mem_nil, not_or,
        or_false] at hne
      obtain ⟨h1, h2, h3, h4, h5, h6, h7⟩ := hne
      simp [getV_setV, apply_ite (fun r => getV r k), h1, h2, h3, h4, h5,
        h6, h7, hkv]
    · intro k2 h
      rcases getV_setV_cases _ _ _ _ h with h | rfl
      swap
      · exact Or.inr (by simp [fogAddedKeys])
      rw [apply_ite (fun r => getV r k2)] at h
      split at h <;>
      · rcases getV_setV_cases _ _ _ _ h with h | rfl
        swap
        · exact Or.inr (by simp [fogAddedKeys])
        rcases getV_setV_cases _ _ _ _ h with h | rfl
        swap
        · exact Or.inr (by simp [fogAddedKeys])
        rcases getV_setV_cases _ _ _ _ h with h | rfl
        swap
        · exact Or.inr (by simp [fogAddedKeys])
        rcases getV_setV_cases _ _ _ _ h with h | rfl
        swap
        · exact Or.inr (by simp [fogAddedKeys])
        rcases getV_setV_cases _ _ _ _ h with h | rfl
        swap
        · exact Or.inr (by simp [fogAddedKeys])
        rcases getV_setV_cases _ _ _ _ h with h | rfl
        swap
        · exact Or.inr (by simp [fogAddedKeys])
        exact Or.inl h
  cases nb with
  | false =>
    exact ⟨_, rfl, hmain d rfl _ _⟩
  | true =>
    rw [hp]
    by_cases hpl : pl = Scalar.str "critical"
    · subst hpl
      exact ⟨_, rfl, hmain d rfl _ _⟩
    · simp only [Option.some_bind, Option.bind_some, hpl, if_false]
      exact ⟨_, rfl, hmain d rfl _ _⟩

/-- Cloud-stage frame lemma: keys other than the six assigned fields are
preserved, and every output key is an input key or an assigned field. -/
theorem cloud_superset (d : Rec) (q : ℚ) (issues : List String) (a : Value)
    (cc : ℚ)
    (hq : getNumTop d "issue_count" = some q)
    (hl : getStrListTop d "health_issues" = some issues)
    (ha : getV d "alert_level" = some a) :
    ∃ c, perform_cloud_analysis d cc = some c ∧
      (∀ k v, getV d k = some v → k ∉ cloudAddedKeys → getV c k = some v) ∧
      (∀ k2, getV c k2 ≠ none → getV d k2 ≠ none ∨ k2 ∈ cloudAddedKeys) := by
  unfold perform_cloud_analysis
  rw [hq, hl, ha]
  refine ⟨_, rfl, ?_, ?_⟩
  · intro k v hkv hne
    simp only [cloudAddedKeys, List.mem_cons, List.not_mem_nil, not_or,
      or_false] at hne
    obtain ⟨h1, h2, h3, h4, h5, h6⟩ := hne
    simp [getV_setV, h1, h2, h3, h4, h5, h6, hkv]
  · intro k2 h
    rcases getV_setV_cases _ _ _ _ h with h | rfl
    swap
    · exact Or.inr (by simp [cloudAddedKeys])
    rcases getV_setV_cases _ _ _ _ h with h | rfl
    swap
    · exact Or.inr (by simp [cloudAddedKeys])
    rcases getV_setV_cases _ _ _ _ h with h | rfl
    swap
    · exact Or.inr (by simp [cloudAddedKeys])
    rcases getV_setV_cases _ _ _ _ h with h | rfl
    swap
    · exact Or.inr (by simp [cloudAddedKeys])
    rcases getV_setV_cases _ _ _ _ h with h | rfl
    swap
    · exact Or.inr (by simp [cloudAddedKeys])
    rcases getV_setV_cases _ _ _ _ h with h | rfl
    swap
    · exact Or.inr (by simp [cloudAddedKeys])
    exact Or.inl h

/-- A legal raw-reading argument for the edge stage that already contains
the key gyroscope_analysis, which the edge stage overwrites. -/
def badRaw : Rec :=
  [ ("GYROSCOPE", Value.dict [("angular_velocity", Scalar.num 0)]),
    ("ACCELEROMETER", Value.dict [("magnitude", Scalar.num 0)]),
    ("PROXIMITY", Value.dict [("distance", Scalar.num 100)]),
    ("gyroscope_analysis", Value.scalar (Scalar.num 7)) ]

/-- Counterexample to Claim C8 as stated: the edge stage is not a superset
map on every input record — an input entry at key gyroscope_analysis is
overwritten, not preserved. -/
theorem c8_counterexample :
    getV badRaw "gyroscope_analysis" = some (Value.scalar (Scalar.num 7)) ∧
    (process_biometric_data badRaw 1).map
        (fun e => getV e "gyroscope_analysis")
      = some (some (Value.dict
          [ ("stability_score", Scalar.num 1),
            ("motion_detected", Scalar.bool false) ])) ∧
    Value.dict [ ("stability_score", Scalar.num 1),
        ("motion_detected", Scalar.bool false) ]
      ≠ Value.scalar (Scalar.num 7) := by
  refine ⟨rfl, rfl, by simp⟩

/-- Claim C8 (amended): for the edge, fog and cloud stages, every key of
the input record whose name is not among the fields the stage itself
assigns appears in the output with its value unchanged, and the output
adds only stage-specific fields.  (As stated the claim fails: an input
entry whose key collides with a stage-assigned field is overwritten.) -/
theorem c8_superset_mod_assigned :
    (∀ (raw : Rec) (s av mag dist : ℚ),
      (raw.map Prod.fst).Nodup →
      getNumField raw "GYROSCOPE" "angular_velocity" = some av →
      getNumField raw "ACCELEROMETER" "magnitude" = some mag →
      getNumField raw "PROXIMITY" "distance" = some dist →
      ∃ e, process_biometric_data raw s = some e ∧
        (∀ k v, getV raw k = some v → k ∉ edgeAssignedKeys →
          getV e k = some v) ∧
        (∀ k2, getV e k2 ≠ none →
          getV raw k2 ≠ none ∨ k2 ∈ edgeAddedKeys)) ∧
    (∀ (d : Rec) (m i nb : Bool) (pl : Scalar),
      getBoolField d "gyroscope_analysis" "motion_detected" = some m →
      getBoolField d "accelerometer_analysis" "impact_detected" = some i →
      getBoolField d "proximity_analysis" "object_nearby" = some nb →
      getScalarField d "proximity_analysis" "alert_level" = some pl →
      ∃ f, analyze_health_data d = some f ∧
        (∀ k v, getV d k = some v → k ∉ fogAddedKeys →
          getV f k = some v) ∧
        (∀ k2, getV f k2 ≠ none →
          getV d k2 ≠ none ∨ k2 ∈ fogAddedKeys)) ∧
    (∀ (d : Rec) (q : ℚ) (issues : List String) (a : Value) (cc : ℚ),
      getNumTop d "issue_count" = some q →
      getStrListTop d "health_issues" = some issues →
      getV d "alert_level" = some a →
      ∃ c, perform_cloud_analysis d cc = some c ∧
        (∀ k v, getV d k = some v → k ∉ cloudAddedKeys →
          getV c k = some v) ∧
        (∀ k2, getV c k2 ≠ none →
          getV d k2 ≠ none ∨ k2 ∈ cloudAddedKeys)) := by
  refine ⟨?_, ?_, ?_⟩
  · intro raw s av mag dist hnd hav hmag hdist
    obtain ⟨e, he, _, _, _, _, hpres, hadds⟩ :=
      edge_eval raw s av mag dist hnd hav hmag hdist
    refine ⟨e, he, ?_, hadds⟩
    intro k v hkv hk
    simp only [edgeAssignedKeys, List.mem_cons, List.not_mem_nil, not_or,
      or_false] at hk
    exact hpres k v hkv hk.1 hk.2.1 hk.2.2.1 hk.2.2.2
  · intro d m i nb pl hm hi hn hp
    exact fog_superset d m i nb pl hm hi hn hp
  · intro d q issues a cc hq hl ha
    exact cloud_superset d q issues a cc hq hl ha

/-- Witness for C8 (amended): the edge stage on the fixed reading
preserves the GYROSCOPE entry, whose key is not an assigned field. -/
theorem c8_witness :
    ∃ e, process_biometric_data fixedReading 1 = some e ∧
      (∀ k v, getV fixedReading k = some v → k ∉ edgeAssignedKeys →
        getV e k = some v) ∧
      (∀ k2, getV e k2 ≠ none →
        getV fixedReading k2 ≠ none ∨ k2 ∈ edgeAddedKeys) :=
  c8_superset_mod_assigned.1 fixedReading 1 6 16 5
    (by simp [fixedReading, generate_precision_agriculture_sensor_data])
    rfl rfl rfl

end AwsSim
